import Mathlib

/-!
Verification of the user-registration service in `Usuario_ok.py`.

The service is one Flask handler, `register_user`, serving `POST /register`:
it acquires a PostgreSQL connection, parses the body (JSON preferred, form
fallback), validates that `username`, `email` and `password` are truthy,
hashes the password with bcrypt, inserts a row into `users` and returns the
generated id.  We embed the handler as a pure Lean function over an explicit
environment (connection availability, bcrypt salt, injected store fault),
an explicit store state, and a Python-value data model, and record an event
trace so that ordering and resource claims can be stated.
-/

namespace UsuarioOk

/-- Python/JSON values as they can appear in a parsed request body. -/
inductive Json where
  | null
  | bool (b : Bool)
  | num (n : Int)
  | str (s : String)
  | arr (elems : List Json)
  | obj (fields : List (String × Json))

mutual

/-- Structural boolean equality on JSON values (used to model the store
comparing column values for the UNIQUE constraints). -/
def Json.beq : Json → Json → Bool
  | .null, .null => true
  | .bool a, .bool b => a == b
  | .num a, .num b => a == b
  | .str a, .str b => a == b
  | .arr a, .arr b => Json.beqList a b
  | .obj a, .obj b => Json.beqObj a b
  | _, _ => false

/-- Elementwise equality for JSON arrays. -/
def Json.beqList : List Json → List Json → Bool
  | [], [] => true
  | a :: as, b :: bs => Json.beq a b && Json.beqList as bs
  | _, _ => false

/-- Fieldwise equality for JSON objects. -/
def Json.beqObj : List (String × Json) → List (String × Json) → Bool
  | [], [] => true
  | (k1, v1) :: fs, (k2, v2) :: gs => k1 == k2 && Json.beq v1 v2 && Json.beqObj fs gs
  | _, _ => false

end

instance : BEq Json := ⟨Json.beq⟩

/-- Python truthiness (`bool(v)`) of a JSON value, as used by
`if not username or not email or not password` on line 56. -/
def pyTruthy : Json → Bool
  | .null => false
  | .bool b => b
  | .num n => n != 0
  | .str s => s != ""
  | .arr elems => !elems.isEmpty
  | .obj fields => !fields.isEmpty

/-- Truthiness of the result of a `.get` call: Python `None` (a missing key)
is falsy. -/
def optTruthy : Option Json → Bool
  | none => false
  | some v => pyTruthy v

/-- `dict.get key` on a parsed JSON object: the value of the last binding of
`key` (Python keeps the last duplicate key), `None` when absent. -/
def pyDictGet (fields : List (String × Json)) (key : String) : Option Json :=
  fields.foldl (fun acc kv => if kv.1 == key then some kv.2 else acc) none

/-- `request.form.get key`: the first value bound to `key` in the
form-encoded body, `None` when absent.  Form values are always strings. -/
def formGet (fields : List (String × String)) (key : String) : Option String :=
  (fields.find? (fun kv => kv.1 == key)).map (·.2)

/-- The `data` object of line 47-49: either a parsed JSON payload or the
form multidict. -/
inductive BodyData where
  | json (j : Json)
  | form (fields : List (String × String))

/-- `data.get key` (lines 51-53).  On a JSON payload this is `dict.get`,
which raises `AttributeError` when the parsed payload is not an object
(e.g. a JSON list, number or string); on form data it returns the string
value.  The error case models the uncaught Python exception. -/
def dataGet : BodyData → String → Except String (Option Json)
  | .json (Json.obj fields), key => .ok (pyDictGet fields key)
  | .json _, _ => .error "AttributeError"
  | .form fields, key => .ok ((formGet fields key).map Json.str)

/-- An incoming `POST /register` request.  `jsonBody` is the Python value
returned by `request.get_json(silent=True)`: `none` when the body is not
parseable JSON (or is the JSON literal `null`, which Flask also returns as
Python `None`), in which case line 49 falls back to `request.form`. -/
structure Request where
  jsonBody : Option Json
  formBody : List (String × String)

/-- Line 47-49: prefer the JSON payload, fall back to the form payload. -/
def dataOf (req : Request) : BodyData :=
  match req.jsonBody with
  | some j => BodyData.json j
  | none => BodyData.form req.formBody

/-- One persisted row of the `users` table.  `username`/`email` hold the
values passed to `cursor.execute` (strings on every normal path). -/
structure Row where
  id : Nat
  username : Json
  email : Json
  password_hash : String

/-- The relational store: the committed rows of `users` and the next value
of the `id` sequence. -/
structure Store where
  rows : List Row
  nextId : Nat

/-- Per-call environment: whether `psycopg2.connect` succeeds, the salt
`bcrypt.gensalt()` returns for this call, and an injected non-integrity
store fault (`some detail` makes the INSERT raise a generic exception whose
`str(e)` is `detail`, modelling line 95's `except Exception`). -/
structure Env where
  connAvailable : Bool
  salt : Nat
  insertFault : Option String

/-- Model of `bcrypt.hashpw(password.encode('utf-8'), bcrypt.gensalt())`:
a modular-crc digest of the password prefixed by the bcrypt header and the
salt (bcrypt embeds the salt verbatim in its output). -/
def bcryptHashpw (password : String) (salt : Nat) : String :=
  "$2b$12$" ++ toString salt ++ "$" ++
    toString (password.foldl (fun a c => (a * 31 + c.toNat) % 1000000007) (salt % 1000000007))

/-- Observable events of one handler call, in order. -/
inductive Event where
  | connectDb (ok : Bool)
  | parseBody
  | closeConn
  | openCursor
  | execInsert
  | commit
  | rollback
  | logError (msg : String)
  | closeCursor
deriving DecidableEq

/-- How one call ends: an HTTP response (status and JSON body fields), or a
Python exception escaping `register_user` uncaught. -/
inductive HandlerOutcome where
  | response (status : Nat) (body : List (String × Json))
  | uncaught (exn : String)

/-- Result of one call: the outcome, the store after the call (reflecting
only committed writes), and the event trace. -/
structure HandlerResult where
  outcome : HandlerOutcome
  store : Store
  trace : List Event

/-- `get_db_connection` (lines 16-30): returns a connection handle, or
`None` when `psycopg2.connect` raises `OperationalError`. -/
def get_db_connection (env : Env) : Option Unit :=
  if env.connAvailable then some () else none

def connFailMsg : String := "Error interno del servidor: Falló la conexión a la base de datos."
def missingMsg : String := "Faltan datos de usuario, correo o contraseña"
def dupMsg : String := "Error: El usuario o correo electrónico ya está registrado."
def genericErrMsg : String := "Error interno al procesar el registro."
def successMsg : String := "Usuario registrado exitosamente en la base de datos."

/-- Whether a JSON value is a string (a value `psycopg2` can bind to the
text columns `username`/`email` without a type error). -/
def Json.isStr : Json → Bool
  | .str _ => true
  | _ => false

/-- The body of `register_user` after the connection is established and the
request body parsed (lines 51-104), as a function of the `data` object.
Traces start with the successful connect and the body parse of lines 42-49. -/
def register_user_body (env : Env) (data : BodyData) (st : Store) : HandlerResult :=
  let tr0 : List Event := [Event.connectDb true, Event.parseBody]
  match dataGet data "username" with
  | .error e => { outcome := .uncaught e, store := st, trace := tr0 }
  | .ok username =>
  match dataGet data "email" with
  | .error e => { outcome := .uncaught e, store := st, trace := tr0 }
  | .ok email =>
  match dataGet data "password" with
  | .error e => { outcome := .uncaught e, store := st, trace := tr0 }
  | .ok password =>
  if !optTruthy username || !optTruthy email || !optTruthy password then
    { outcome := .response 400 [("message", Json.str missingMsg)]
      store := st
      trace := tr0 ++ [Event.closeConn] }
  else
    match password with
    | some (Json.str pw) =>
      let hashed := bcryptHashpw pw env.salt
      let uname := username.getD Json.null
      let mail := email.getD Json.null
      let tr1 := tr0 ++ [Event.openCursor, Event.execInsert]
      match env.insertFault with
      | some d =>
        { outcome := .response 500 [("message", Json.str genericErrMsg),
            ("error_detail", Json.str d)]
          store := st
          trace := tr1 ++ [Event.rollback, Event.logError d, Event.closeCursor, Event.closeConn] }
      | none =>
        if !uname.isStr || !mail.isStr then
          { outcome := .response 500 [("message", Json.str genericErrMsg),
              ("error_detail", Json.str "ProgrammingError")]
            store := st
            trace := tr1 ++ [Event.rollback, Event.logError "ProgrammingError",
              Event.closeCursor, Event.closeConn] }
        else if st.rows.any (fun r => r.username == uname || r.email == mail) then
          { outcome := .response 409 [("message", Json.str dupMsg)]
            store := st
            trace := tr1 ++ [Event.rollback, Event.closeCursor, Event.closeConn] }
        else
          let newRow : Row :=
            { id := st.nextId, username := uname, email := mail, password_hash := hashed }
          { outcome := .response 201 [("message", Json.str successMsg),
              ("user_id", Json.num st.nextId), ("usuario", uname), ("correo", mail)]
            store := { rows := st.rows ++ [newRow], nextId := st.nextId + 1 }
            trace := tr1 ++ [Event.commit, Event.closeCursor, Event.closeConn] }
    | _ =>
      { outcome := .uncaught "AttributeError", store := st, trace := tr0 }

/-- `register_user` (lines 39-104): the `POST /register` handler. -/
def register_user (env : Env) (req : Request) (st : Store) : HandlerResult :=
  match get_db_connection env with
  | none =>
    { outcome := .response 500 [("message", Json.str connFailMsg)]
      store := st
      trace := [Event.connectDb false] }
  | some _ => register_user_body env (dataOf req) st

/-- Repeating the same request `n` times, threading the store. -/
def repeatRegister (env : Env) (req : Request) : Nat → Store → Store
  | 0, st => st
  | n + 1, st => repeatRegister env req n (register_user env req st).store

/-- A call releases its handles when the connection, if established, is
closed, and the cursor, if opened, is closed. -/
def releasesResources (r : HandlerResult) : Bool :=
  (!r.trace.contains (Event.connectDb true) || r.trace.contains Event.closeConn) &&
  (!r.trace.contains Event.openCursor || r.trace.contains Event.closeCursor)

/-- Whether the outcome is an HTTP response (as opposed to an uncaught
exception escaping the handler). -/
def HandlerOutcome.isResponse : HandlerOutcome → Bool
  | .response _ _ => true
  | .uncaught _ => false

/-- Shared success-path lemma: when the connection succeeds, the three
fields extract to non-empty strings, no store fault is injected and no
UNIQUE constraint fires, the call commits exactly the new row and answers
201 with the generated id. -/
lemma register_user_success (env : Env) (req : Request) (st : Store) (u e p : String)
    (hconn : env.connAvailable = true)
    (hu : dataGet (dataOf req) "username" = .ok (some (Json.str u)))
    (he : dataGet (dataOf req) "email" = .ok (some (Json.str e)))
    (hp : dataGet (dataOf req) "password" = .ok (some (Json.str p)))
    (hu2 : u ≠ "") (he2 : e ≠ "") (hp2 : p ≠ "")
    (hfault : env.insertFault = none)
    (hdup : st.rows.any (fun r => r.username == Json.str u || r.email == Json.str e) = false) :
    register_user env req st =
      { outcome := .response 201 [("message", Json.str successMsg),
          ("user_id", Json.num st.nextId), ("usuario", Json.str u), ("correo", Json.str e)]
        store := ⟨st.rows ++
            [⟨st.nextId, Json.str u, Json.str e, bcryptHashpw p env.salt⟩], st.nextId + 1⟩
        trace := [Event.connectDb true, Event.parseBody, Event.openCursor, Event.execInsert,
          Event.commit, Event.closeCursor, Event.closeConn] } := by
  have hc : get_db_connection env = some () := by simp [get_db_connection, hconn]
  simp only [register_user, hc]
  simp only [register_user_body, hu, he, hp, hfault, optTruthy, pyTruthy]
  simp [hu2, he2, hp2, hdup, Json.isStr]

/-- C1: a request whose body yields non-empty `username`, `email` and
`password` and whose INSERT succeeds is committed and answered 201 with the
store-generated id as `user_id`, the username as `usuario` and the email as
`correo`, and exactly one new row is appended to the store. -/
theorem c1_register_success (env : Env) (req : Request) (st : Store) (u e p : String)
    (hconn : env.connAvailable = true)
    (hu : dataGet (dataOf req) "username" = .ok (some (Json.str u)))
    (he : dataGet (dataOf req) "email" = .ok (some (Json.str e)))
    (hp : dataGet (dataOf req) "password" = .ok (some (Json.str p)))
    (hu2 : u ≠ "") (he2 : e ≠ "") (hp2 : p ≠ "")
    (hfault : env.insertFault = none)
    (hdup : st.rows.any (fun r => r.username == Json.str u || r.email == Json.str e) = false) :
    (register_user env req st).outcome = .response 201
      [("message", Json.str successMsg), ("user_id", Json.num st.nextId),
       ("usuario", Json.str u), ("correo", Json.str e)] ∧
    (register_user env req st).store.rows = st.rows ++
      [⟨st.nextId, Json.str u, Json.str e, bcryptHashpw p env.salt⟩] ∧
    Event.commit ∈ (register_user env req st).trace := by
  rw [register_user_success env req st u e p hconn hu he hp hu2 he2 hp2 hfault hdup]
  refine ⟨rfl, rfl, ?_⟩
  simp

/-- C1 witness: registering `ana` against an empty store answers 201 with
id 1 and appends her row. -/
theorem c1_register_success_witness :
    (register_user ⟨true, 7, none⟩
        ⟨some (Json.obj [("username", Json.str "ana"), ("email", Json.str "a@b.c"),
          ("password", Json.str "pw")]), []⟩ ⟨[], 1⟩).outcome = .response 201
      [("message", Json.str successMsg), ("user_id", Json.num 1),
       ("usuario", Json.str "ana"), ("correo", Json.str "a@b.c")] ∧
    (register_user ⟨true, 7, none⟩
        ⟨some (Json.obj [("username", Json.str "ana"), ("email", Json.str "a@b.c"),
          ("password", Json.str "pw")]), []⟩ ⟨[], 1⟩).store.rows = [] ++
      [⟨1, Json.str "ana", Json.str "a@b.c", bcryptHashpw "pw" 7⟩] ∧
    Event.commit ∈ (register_user ⟨true, 7, none⟩
        ⟨some (Json.obj [("username", Json.str "ana"), ("email", Json.str "a@b.c"),
          ("password", Json.str "pw")]), []⟩ ⟨[], 1⟩).trace :=
  c1_register_success _ _ _ "ana" "a@b.c" "pw" rfl rfl rfl rfl
    (by decide) (by decide) (by decide) rfl rfl

/-- C2: when the INSERT hits the UNIQUE constraint (duplicate username or
email), the handler rolls back, answers 409 with the duplicate message, and
the store is unchanged. -/
theorem c2_register_duplicate (env : Env) (req : Request) (st : Store) (u e p : String)
    (hconn : env.connAvailable = true)
    (hu : dataGet (dataOf req) "username" = .ok (some (Json.str u)))
    (he : dataGet (dataOf req) "email" = .ok (some (Json.str e)))
    (hp : dataGet (dataOf req) "password" = .ok (some (Json.str p)))
    (hu2 : u ≠ "") (he2 : e ≠ "") (hp2 : p ≠ "")
    (hfault : env.insertFault = none)
    (hdup : st.rows.any (fun r => r.username == Json.str u || r.email == Json.str e) = true) :
    (register_user env req st).outcome = .response 409 [("message", Json.str dupMsg)] ∧
    (register_user env req st).store = st ∧
    Event.rollback ∈ (register_user env req st).trace := by
  have hc : get_db_connection env = some () := by simp [get_db_connection, hconn]
  have h : register_user env req st =
      { outcome := .response 409 [("message", Json.str dupMsg)], store := st,
        trace := [Event.connectDb true, Event.parseBody, Event.openCursor, Event.execInsert,
          Event.rollback, Event.closeCursor, Event.closeConn] } := by
    simp only [register_user, hc]
    simp only [register_user_body, hu, he, hp, hfault, optTruthy, pyTruthy]
    simp [hu2, he2, hp2, hdup, Json.isStr]
  rw [h]
  exact ⟨rfl, rfl, by simp⟩

/-- C2 witness: registering `ana` a second time (same username, fresh
email) answers 409 and leaves the one existing row untouched. -/
theorem c2_register_duplicate_witness :
    (register_user ⟨true, 7, none⟩
        ⟨some (Json.obj [("username", Json.str "ana"), ("email", Json.str "new@b.c"),
          ("password", Json.str "pw")]), []⟩
        ⟨[⟨1, Json.str "ana", Json.str "a@b.c", "h"⟩], 2⟩).outcome =
      .response 409 [("message", Json.str dupMsg)] ∧
    (register_user ⟨true, 7, none⟩
        ⟨some (Json.obj [("username", Json.str "ana"), ("email", Json.str "new@b.c"),
          ("password", Json.str "pw")]), []⟩
        ⟨[⟨1, Json.str "ana", Json.str "a@b.c", "h"⟩], 2⟩).store =
      ⟨[⟨1, Json.str "ana", Json.str "a@b.c", "h"⟩], 2⟩ ∧
    Event.rollback ∈ (register_user ⟨true, 7, none⟩
        ⟨some (Json.obj [("username", Json.str "ana"), ("email", Json.str "new@b.c"),
          ("password", Json.str "pw")]), []⟩
        ⟨[⟨1, Json.str "ana", Json.str "a@b.c", "h"⟩], 2⟩).trace :=
  c2_register_duplicate _ _ _ "ana" "new@b.c" "pw" rfl rfl rfl rfl
    (by decide) (by decide) (by decide) rfl rfl

/-- C3: when `username`, `email` or `password` is absent or the empty
string, the handler answers 400, performs no INSERT, and repeating the
request any number of times leaves the store unchanged. -/
theorem c3_missing_fields (env : Env) (req : Request) (st : Store)
    (uo eo po : Option Json)
    (hconn : env.connAvailable = true)
    (hu : dataGet (dataOf req) "username" = .ok uo)
    (he : dataGet (dataOf req) "email" = .ok eo)
    (hp : dataGet (dataOf req) "password" = .ok po)
    (hmiss : (uo = none ∨ uo = some (Json.str "")) ∨
      (eo = none ∨ eo = some (Json.str "")) ∨
      (po = none ∨ po = some (Json.str ""))) :
    (register_user env req st).outcome = .response 400 [("message", Json.str missingMsg)] ∧
    (register_user env req st).store = st ∧
    Event.execInsert ∉ (register_user env req st).trace ∧
    ∀ n, repeatRegister env req n st = st := by
  have hc : get_db_connection env = some () := by simp [get_db_connection, hconn]
  have hcond : (!optTruthy uo || !optTruthy eo || !optTruthy po) = true := by
    rcases hmiss with (h | h) | (h | h) | (h | h) <;> subst h <;> simp [optTruthy, pyTruthy]
  have h : register_user env req st =
      { outcome := .response 400 [("message", Json.str missingMsg)], store := st,
        trace := [Event.connectDb true, Event.parseBody, Event.closeConn] } := by
    simp only [register_user, hc]
    simp only [register_user_body, hu, he, hp]
    simp [hcond]
  have hst : (register_user env req st).store = st := by rw [h]
  refine ⟨by rw [h], hst, by rw [h]; simp, ?_⟩
  intro n
  induction n with
  | zero => rfl
  | succ k ih =>
    show repeatRegister env req k (register_user env req st).store = st
    rw [hst]
    exact ih

/-- C3 witness: a request carrying only a username answers 400, writes
nothing, and three repetitions still leave the store empty. -/
theorem c3_missing_fields_witness :
    (register_user ⟨true, 7, none⟩ ⟨some (Json.obj [("username", Json.str "bob")]), []⟩
        ⟨[], 1⟩).outcome = .response 400 [("message", Json.str missingMsg)] ∧
    (register_user ⟨true, 7, none⟩ ⟨some (Json.obj [("username", Json.str "bob")]), []⟩
        ⟨[], 1⟩).store = ⟨[], 1⟩ ∧
    Event.execInsert ∉ (register_user ⟨true, 7, none⟩
        ⟨some (Json.obj [("username", Json.str "bob")]), []⟩ ⟨[], 1⟩).trace ∧
    ∀ n, repeatRegister ⟨true, 7, none⟩
        ⟨some (Json.obj [("username", Json.str "bob")]), []⟩ n ⟨[], 1⟩ = ⟨[], 1⟩ :=
  c3_missing_fields _ _ _ _ _ _ rfl rfl rfl rfl (Or.inr (Or.inl (Or.inl rfl)))

/-- C6: when the INSERT raises any store error other than the uniqueness
violation, the handler rolls back, logs the cause, and answers 500 with the
generic message plus the diagnostic detail; the store is unchanged. -/
theorem c6_unexpected_error (env : Env) (req : Request) (st : Store) (u e p d : String)
    (hconn : env.connAvailable = true)
    (hu : dataGet (dataOf req) "username" = .ok (some (Json.str u)))
    (he : dataGet (dataOf req) "email" = .ok (some (Json.str e)))
    (hp : dataGet (dataOf req) "password" = .ok (some (Json.str p)))
    (hu2 : u ≠ "") (he2 : e ≠ "") (hp2 : p ≠ "")
    (hfault : env.insertFault = some d) :
    (register_user env req st).outcome = .response 500
      [("message", Json.str genericErrMsg), ("error_detail", Json.str d)] ∧
    (register_user env req st).store = st ∧
    Event.rollback ∈ (register_user env req st).trace ∧
    Event.logError d ∈ (register_user env req st).trace := by
  have hc : get_db_connection env = some () := by simp [get_db_connection, hconn]
  have h : register_user env req st =
      { outcome := .response 500
          [("message", Json.str genericErrMsg), ("error_detail", Json.str d)], store := st,
        trace := [Event.connectDb true, Event.parseBody, Event.openCursor, Event.execInsert,
          Event.rollback, Event.logError d, Event.closeCursor, Event.closeConn] } := by
    simp only [register_user, hc]
    simp only [register_user_body, hu, he, hp, hfault, optTruthy, pyTruthy]
    simp [hu2, he2, hp2]
  rw [h]
  exact ⟨rfl, rfl, by simp, by simp⟩

/-- C6 witness: an injected store fault with detail `deadlock detected`
yields the 500 response carrying that detail, a rollback, and a log entry. -/
theorem c6_unexpected_error_witness :
    (register_user ⟨true, 7, some "deadlock detected"⟩
        ⟨some (Json.obj [("username", Json.str "ana"), ("email", Json.str "a@b.c"),
          ("password", Json.str "pw")]), []⟩ ⟨[], 1⟩).outcome = .response 500
      [("message", Json.str genericErrMsg), ("error_detail", Json.str "deadlock detected")] ∧
    (register_user ⟨true, 7, some "deadlock detected"⟩
        ⟨some (Json.obj [("username", Json.str "ana"), ("email", Json.str "a@b.c"),
          ("password", Json.str "pw")]), []⟩ ⟨[], 1⟩).store = ⟨[], 1⟩ ∧
    Event.rollback ∈ (register_user ⟨true, 7, some "deadlock detected"⟩
        ⟨some (Json.obj [("username", Json.str "ana"), ("email", Json.str "a@b.c"),
          ("password", Json.str "pw")]), []⟩ ⟨[], 1⟩).trace ∧
    Event.logError "deadlock detected" ∈ (register_user ⟨true, 7, some "deadlock detected"⟩
        ⟨some (Json.obj [("username", Json.str "ana"), ("email", Json.str "a@b.c"),
          ("password", Json.str "pw")]), []⟩ ⟨[], 1⟩).trace :=
  c6_unexpected_error _ _ _ "ana" "a@b.c" "pw" "deadlock detected" rfl rfl rfl rfl
    (by decide) (by decide) (by decide) rfl

/-- Every branch of the post-connection body records the successful connect
as its first event. -/
lemma register_user_body_trace_head (env : Env) (data : BodyData) (st : Store) :
    (register_user_body env data st).trace.head? = some (Event.connectDb true) := by
  simp only [register_user_body]
  repeat' split
  all_goals rfl

/-- C5: the connection attempt is the first observable step of every call,
and when it fails the handler answers 500 without ever parsing the body or
touching the store. -/
theorem c5_connection_acquired_first (env : Env) (req : Request) (st : Store) :
    (register_user env req st).trace.head? = some (Event.connectDb env.connAvailable) ∧
    (env.connAvailable = false →
      (register_user env req st).outcome = .response 500 [("message", Json.str connFailMsg)] ∧
      Event.parseBody ∉ (register_user env req st).trace ∧
      (register_user env req st).store = st) := by
  cases hc : env.connAvailable with
  | false =>
    have h : register_user env req st =
        { outcome := .response 500 [("message", Json.str connFailMsg)], store := st,
          trace := [Event.connectDb false] } := by
      simp [register_user, get_db_connection, hc]
    rw [h]
    exact ⟨rfl, fun _ => ⟨rfl, by simp, rfl⟩⟩
  | true =>
    have h : register_user env req st = register_user_body env (dataOf req) st := by
      simp [register_user, get_db_connection, hc]
    refine ⟨?_, fun hfalse => absurd hfalse (by simp)⟩
    rw [h]
    exact register_user_body_trace_head env (dataOf req) st

/-- C5 witness: with the store down, a call answers 500, its trace is the
bare failed connect, and the store is untouched. -/
theorem c5_connection_acquired_first_witness :
    (register_user ⟨false, 0, none⟩ ⟨none, []⟩ ⟨[], 1⟩).outcome =
      .response 500 [("message", Json.str connFailMsg)] ∧
    Event.parseBody ∉ (register_user ⟨false, 0, none⟩ ⟨none, []⟩ ⟨[], 1⟩).trace ∧
    (register_user ⟨false, 0, none⟩ ⟨none, []⟩ ⟨[], 1⟩).store = ⟨[], 1⟩ :=
  (c5_connection_acquired_first ⟨false, 0, none⟩ ⟨none, []⟩ ⟨[], 1⟩).2 rfl

/-- A call releases its handles when the established connection is closed
and the opened cursor is closed. -/
def releasesHandles (r : HandlerResult) : Prop :=
  (Event.connectDb true ∈ r.trace → Event.closeConn ∈ r.trace) ∧
  (Event.openCursor ∈ r.trace → Event.closeCursor ∈ r.trace)

instance (r : HandlerResult) : Decidable (releasesHandles r) := by
  unfold releasesHandles
  infer_instance

/-- C7 counterexample: a request whose JSON body parses to the number `5`
(not an object) makes `data.get` raise before the `try` block, so the
connection obtained at line 42 is never closed: the claim that every exit
path releases the store connection fails. -/
theorem c7_counterexample :
    ¬ releasesHandles
      (register_user ⟨true, 0, none⟩ ⟨some (Json.num 5), []⟩ ⟨[], 1⟩) := by decide

/-- C7 amended: on every exit path on which field extraction and password
hashing do not raise — that is, `data` is an object or form and any truthy
password value is a string — the connection and any cursor are released;
when extraction or hashing raises, the connection leaks. -/
theorem c7_releases_handles (env : Env) (req : Request) (st : Store)
    (uo eo po : Option Json)
    (hu : dataGet (dataOf req) "username" = .ok uo)
    (he : dataGet (dataOf req) "email" = .ok eo)
    (hp : dataGet (dataOf req) "password" = .ok po)
    (hps : optTruthy po = true → ∃ s, po = some (Json.str s)) :
    releasesHandles (register_user env req st) := by
  cases hc : env.connAvailable with
  | false =>
    have h : register_user env req st =
        { outcome := .response 500 [("message", Json.str connFailMsg)], store := st,
          trace := [Event.connectDb false] } := by
      simp [register_user, get_db_connection, hc]
    rw [h]
    exact ⟨fun hmem => by simp at hmem, fun hmem => by simp at hmem⟩
  | true =>
    have hcg : get_db_connection env = some () := by simp [get_db_connection, hc]
    simp only [register_user, hcg]
    simp only [register_user_body, hu, he, hp]
    rcases htr : (!optTruthy uo || !optTruthy eo || !optTruthy po) with _ | _
    · have hpo : optTruthy po = true := by
        revert htr
        cases optTruthy po <;> simp
      obtain ⟨s, hs⟩ := hps hpo
      subst hs
      simp only [Bool.false_eq_true, if_false]
      cases hf : env.insertFault with
      | some d => exact ⟨fun _ => by simp, fun _ => by simp⟩
      | none =>
        repeat' split
        all_goals exact ⟨fun _ => by simp, fun _ => by simp⟩
    · rw [if_pos rfl]
      exact ⟨fun _ => by simp, fun hmem => by simp at hmem⟩

/-- C7 amended witness: a well-formed registration releases both handles. -/
theorem c7_releases_handles_witness :
    releasesHandles (register_user ⟨true, 7, none⟩
      ⟨some (Json.obj [("username", Json.str "ana"), ("email", Json.str "a@b.c"),
        ("password", Json.str "pw")]), []⟩ ⟨[], 1⟩) :=
  c7_releases_handles _ _ _ _ _ _ rfl rfl rfl (fun _ => ⟨"pw", rfl⟩)

/-- C8 counterexample: a JSON body binding `password` to the number `3`
(truthy, non-string) makes `password.encode` raise `AttributeError` on
line 62, outside the `try` block: the exception escapes the handler
uncaught, refuting the claim that every error is translated to an HTTP
status. -/
theorem c8_counterexample :
    ((register_user ⟨true, 0, none⟩
        ⟨some (Json.obj [("username", Json.str "bob"), ("email", Json.str "b@c.d"),
          ("password", Json.num 3)]), []⟩ ⟨[], 1⟩).outcome).isResponse = false ∧
    (register_user ⟨true, 0, none⟩
        ⟨some (Json.obj [("username", Json.str "bob"), ("email", Json.str "b@c.d"),
          ("password", Json.num 3)]), []⟩ ⟨[], 1⟩).outcome = .uncaught "AttributeError" :=
  ⟨rfl, rfl⟩

/-- C8 amended: every error arising once the three fields have been
extracted — validation failure, uniqueness violation, or any other store
error — is caught and translated to an HTTP status with a client-safe
message; but when the parsed JSON body is not an object, or a truthy
non-string password reaches `password.encode`, the exception escapes the
handler uncaught. -/
theorem c8_errors_translated (env : Env) (req : Request) (st : Store)
    (uo eo po : Option Json)
    (hu : dataGet (dataOf req) "username" = .ok uo)
    (he : dataGet (dataOf req) "email" = .ok eo)
    (hp : dataGet (dataOf req) "password" = .ok po)
    (hps : optTruthy po = true → ∃ s, po = some (Json.str s)) :
    ((register_user env req st).outcome).isResponse = true := by
  cases hc : env.connAvailable with
  | false =>
    have h : register_user env req st =
        { outcome := .response 500 [("message", Json.str connFailMsg)], store := st,
          trace := [Event.connectDb false] } := by
      simp [register_user, get_db_connection, hc]
    rw [h]
    rfl
  | true =>
    have hcg : get_db_connection env = some () := by simp [get_db_connection, hc]
    simp only [register_user, hcg]
    simp only [register_user_body, hu, he, hp]
    rcases htr : (!optTruthy uo || !optTruthy eo || !optTruthy po) with _ | _
    · have hpo : optTruthy po = true := by
        revert htr
        cases optTruthy po <;> simp
      obtain ⟨s, hs⟩ := hps hpo
      subst hs
      simp only [Bool.false_eq_true, if_false]
      cases hf : env.insertFault with
      | some d => rfl
      | none =>
        repeat' split
        all_goals rfl
    · rw [if_pos rfl]
      rfl

/-- C8 amended witness: a form request with no fields at all is still
answered with an HTTP response (the 400), not an escaping exception. -/
theorem c8_errors_translated_witness :
    ((register_user ⟨true, 0, none⟩ ⟨none, []⟩ ⟨[], 1⟩).outcome).isResponse = true :=
  c8_errors_translated ⟨true, 0, none⟩ ⟨none, []⟩ ⟨[], 1⟩ none none none rfl rfl rfl
    (fun h => absurd h (by decide))

/-- C9: the handler prefers the JSON payload — the form fields are ignored
whenever a JSON payload is present — and only when no JSON payload is
present does it read the flat form fields, a normal path through which a
registration succeeds. -/
theorem c9_json_preferred_form_fallback (env : Env) (st : Store) :
    (∀ (j : Json) (f1 f2 : List (String × String)),
      register_user env ⟨some j, f1⟩ st = register_user env ⟨some j, f2⟩ st) ∧
    (∀ f : List (String × String), dataOf ⟨none, f⟩ = BodyData.form f) ∧
    (∀ (f : List (String × String)) (u e p : String),
      env.connAvailable = true → env.insertFault = none →
      formGet f "username" = some u → formGet f "email" = some e →
      formGet f "password" = some p →
      u ≠ "" → e ≠ "" → p ≠ "" →
      st.rows.any (fun r => r.username == Json.str u || r.email == Json.str e) = false →
      (register_user env ⟨none, f⟩ st).outcome = .response 201
        [("message", Json.str successMsg), ("user_id", Json.num st.nextId),
         ("usuario", Json.str u), ("correo", Json.str e)]) := by
  refine ⟨fun j f1 f2 => rfl, fun f => rfl, ?_⟩
  intro f u e p hconn hfault hfu hfe hfp hu2 he2 hp2 hdup
  have hu : dataGet (dataOf ⟨none, f⟩) "username" = .ok (some (Json.str u)) := by
    simp [dataOf, dataGet, hfu]
  have he : dataGet (dataOf ⟨none, f⟩) "email" = .ok (some (Json.str e)) := by
    simp [dataOf, dataGet, hfe]
  have hp : dataGet (dataOf ⟨none, f⟩) "password" = .ok (some (Json.str p)) := by
    simp [dataOf, dataGet, hfp]
  rw [register_user_success env ⟨none, f⟩ st u e p hconn hu he hp hu2 he2 hp2 hfault hdup]

/-- C9 witness: with no JSON payload, the form fields for `ana` register
her successfully through the fallback path. -/
theorem c9_json_preferred_form_fallback_witness :
    (register_user ⟨true, 3, none⟩
        ⟨none, [("username", "ana"), ("email", "a@b.c"), ("password", "pw")]⟩
        ⟨[], 1⟩).outcome = .response 201
      [("message", Json.str successMsg), ("user_id", Json.num 1),
       ("usuario", Json.str "ana"), ("correo", Json.str "a@b.c")] :=
  (c9_json_preferred_form_fallback ⟨true, 3, none⟩ ⟨[], 1⟩).2.2
    [("username", "ana"), ("email", "a@b.c"), ("password", "pw")] "ana" "a@b.c" "pw"
    rfl rfl rfl rfl rfl (by decide) (by decide) (by decide) rfl

/-- C10: a JSON request binding `username`, `email` or `password` to a
falsy non-string value (0, false, null, an empty list, ...) is treated as
missing data — 400, no INSERT, store unchanged — because line 56 tests
truthiness, not key presence. -/
theorem c10_falsy_json_field (env : Env) (req : Request) (st : Store)
    (fs : List (String × Json)) (k : String) (v : Json)
    (hconn : env.connAvailable = true)
    (hj : req.jsonBody = some (Json.obj fs))
    (hk : k = "username" ∨ k = "email" ∨ k = "password")
    (hv : pyDictGet fs k = some v)
    (hfalsy : pyTruthy v = false)
    (_hnstr : Json.isStr v = false) :
    (register_user env req st).outcome = .response 400 [("message", Json.str missingMsg)] ∧
    (register_user env req st).store = st ∧
    Event.execInsert ∉ (register_user env req st).trace := by
  have hd : dataOf req = BodyData.json (Json.obj fs) := by simp [dataOf, hj]
  have hcg : get_db_connection env = some () := by simp [get_db_connection, hconn]
  have hcond : (!optTruthy (pyDictGet fs "username") || !optTruthy (pyDictGet fs "email") ||
      !optTruthy (pyDictGet fs "password")) = true := by
    rcases hk with h | h | h <;> subst h <;> rw [hv] <;> simp [optTruthy, hfalsy]
  have h : register_user env req st =
      { outcome := .response 400 [("message", Json.str missingMsg)], store := st,
        trace := [Event.connectDb true, Event.parseBody, Event.closeConn] } := by
    simp only [register_user, hcg, hd]
    simp only [register_user_body, dataGet]
    rw [hcond]
    simp
  exact ⟨by rw [h], by rw [h], by rw [h]; simp⟩

/-- C10 witness: `username` bound to the JSON number 0 yields 400 and no
write, even though the key is present. -/
theorem c10_falsy_json_field_witness :
    (register_user ⟨true, 0, none⟩
        ⟨some (Json.obj [("username", Json.num 0), ("email", Json.str "e@f.g"),
          ("password", Json.str "p")]), []⟩ ⟨[], 1⟩).outcome =
      .response 400 [("message", Json.str missingMsg)] ∧
    (register_user ⟨true, 0, none⟩
        ⟨some (Json.obj [("username", Json.num 0), ("email", Json.str "e@f.g"),
          ("password", Json.str "p")]), []⟩ ⟨[], 1⟩).store = ⟨[], 1⟩ ∧
    Event.execInsert ∉ (register_user ⟨true, 0, none⟩
        ⟨some (Json.obj [("username", Json.num 0), ("email", Json.str "e@f.g"),
          ("password", Json.str "p")]), []⟩ ⟨[], 1⟩).trace :=
  c10_falsy_json_field _ _ _ _ "username" (Json.num 0) rfl rfl (Or.inl rfl) rfl
    (by decide) rfl

end UsuarioOk
